import Mathlib

/-!
Shallow embedding of `src/main.py` (TanKimzeg/url-submitter) in Lean 4,
with theorems settling the frozen claims about it.

The program: parse an RSS sitemap file, extract `item/link` URLs, derive
the site origin from the first URL, and submit the list to two indexing
APIs (a Bing-style batch endpoint and an IndexNow-style push endpoint).

Modelling conventions:
* XML documents are modelled by the inductive `XmlNode`; `ET.parse` of a
  file is modelled by a `ReadOutcome` that either supplies the parsed root
  or one of the exception classes the code catches.
* `random.sample(urls, k)` is modelled nondeterministically: the sample is
  an explicit argument, constrained in theorems by `validSample` (a list of
  distinct positions of the population, of the required length).
* Network I/O is modelled by an oracle `net : Request -> NetOutcome`; an
  outcome is an HTTP response, a `requests.RequestException`, or any other
  exception raised by the call.  `response.json()` is fallible, so the
  response carries `jsonBody : Option Json` (`none` models the decode
  raising `ValueError`, which the code catches in its generic handler).
* Each `submit_urls` returns its result dict together with the request it
  posted (`none` when it returned before any network call), so claims about
  payloads and about "no outbound call" are statable.
-/

/-- A JSON value, for decoded response bodies. -/
inductive Json where
  | null : Json
  | bool (b : Bool) : Json
  | num (n : Int) : Json
  | str (s : String) : Json
  | arr (xs : List Json) : Json
  | obj (fields : List (String × Json)) : Json

/-- An XML element: tag, text content (`None` or a string, as in
ElementTree), and child elements in document order. -/
inductive XmlNode where
  | elem (tag : String) (text : Option String) (children : List XmlNode)

def XmlNode.tag : XmlNode → String
  | .elem t _ _ => t

def XmlNode.text : XmlNode → Option String
  | .elem _ x _ => x

def XmlNode.children : XmlNode → List XmlNode
  | .elem _ _ cs => cs

mutual
/-- `root.findall('.//t')`: all proper descendants of the node with tag `t`,
in document (pre-)order. -/
def findallDesc (t : String) : XmlNode → List XmlNode
  | .elem _ _ cs => findallDescList t cs

/-- Descendant search over a sibling list, in document order: each matching
node precedes the matches inside it, which precede later siblings. -/
def findallDescList (t : String) : List XmlNode → List XmlNode
  | [] => []
  | c :: rest =>
      (if c.tag = t then [c] else []) ++ findallDesc t c ++ findallDescList t rest
end

/-- Python `str.strip()`: drop leading and trailing whitespace characters.
Implemented over the character list so it evaluates by kernel reduction. -/
def pyStrip (s : String) : String :=
  ⟨((s.data.dropWhile Char.isWhitespace).reverse.dropWhile Char.isWhitespace).reverse⟩

/-- `node.find('t')`: the first direct child with tag `t`, if any. -/
def findChild (t : String) (n : XmlNode) : Option XmlNode :=
  n.children.find? (fun c => c.tag = t)

/-- `SitemapParser.parse_rss_sitemap`, success path: for every `item`
descendant, if it has a `link` child whose text is truthy (not `None` and
not `""`), append `text.strip()`. -/
def parse_rss_sitemap (root : XmlNode) : List String :=
  (findallDesc "item" root).filterMap fun item =>
    match findChild "link" item with
    | none => none
    | some l =>
        match l.text with
        | none => none
        | some t => if t = "" then none else some (pyStrip t)

/-- Outcome of `ET.parse(self.sitemap_file)`: the parsed root, or one of the
exception classes the method catches (`ET.ParseError`, `FileNotFoundError`,
any other `Exception`). -/
inductive ReadOutcome where
  | ok (root : XmlNode) : ReadOutcome
  | parseError (msg : String) : ReadOutcome
  | fileNotFound : ReadOutcome
  | otherError (msg : String) : ReadOutcome

/-- `SitemapParser.parse_rss_sitemap` including its exception handlers:
every failure of `ET.parse` is logged and turned into `[]`. -/
def parse_rss_sitemap_io : ReadOutcome → List String
  | .ok root => parse_rss_sitemap root
  | .parseError _ => []
  | .fileNotFound => []
  | .otherError _ => []

/-- An `item` element with a single `link` child holding text `t`. -/
def itemWithLink (t : String) : XmlNode :=
  .elem "item" none [.elem "link" (some t) []]

/-- An RSS document `rss/channel/...items`. -/
def rssDoc (items : List XmlNode) : XmlNode :=
  .elem "rss" none [.elem "channel" none items]

theorem findallDescList_items (texts : List String) :
    findallDescList "item" (texts.map itemWithLink) = texts.map itemWithLink := by
  induction texts with
  | nil => simp [findallDescList]
  | cons t rest ih =>
      simp [findallDescList, findallDesc, itemWithLink, XmlNode.tag, ih]

theorem findallDesc_rssDoc (items : List XmlNode) :
    findallDesc "item" (rssDoc items) = findallDescList "item" items := by
  simp [rssDoc, findallDesc, findallDescList, XmlNode.tag]

theorem parse_item_step (t : String) :
    (match findChild "link" (itemWithLink t) with
      | none => none
      | some l =>
          match l.text with
          | none => none
          | some s => if s = "" then none else some (pyStrip s)) =
      (if t = "" then none else some (pyStrip t)) := by
  simp [findChild, itemWithLink, XmlNode.children, XmlNode.tag, XmlNode.text,
    List.find?]

/-- C4: a well-formed RSS sitemap whose N items each carry a `link` child
with non-empty text parses to exactly the N trimmed link texts, in document
order. -/
theorem parse_wellformed_sitemap (texts : List String)
    (h : ∀ t ∈ texts, t ≠ "") :
    parse_rss_sitemap (rssDoc (texts.map itemWithLink)) = texts.map pyStrip := by
  unfold parse_rss_sitemap
  rw [findallDesc_rssDoc, findallDescList_items]
  induction texts with
  | nil => simp
  | cons t rest ih =>
      have ht : t ≠ "" := h t (by simp)
      simp only [List.map_cons, List.filterMap_cons, parse_item_step, if_neg ht]
      rw [ih (fun s hs => h s (by simp [hs]))]

/-- C4 witness: a sitemap with two items returns their two trimmed links in
order. -/
theorem parse_wellformed_sitemap_witness :
    (∀ t ∈ ["  https://a.example/x ", "https://a.example/y"], t ≠ "") ∧
      parse_rss_sitemap
          (rssDoc (["  https://a.example/x ", "https://a.example/y"].map itemWithLink)) =
        ["https://a.example/x", "https://a.example/y"] :=
  ⟨by decide,
    (parse_wellformed_sitemap ["  https://a.example/x ", "https://a.example/y"]
        (by decide)).trans (by decide)⟩

/-- C5: `parse_rss_sitemap` absorbs every failure of reading/parsing the
file — XML parse error, missing file, any other exception — into the empty
list; as a total Lean function it never raises. -/
theorem parse_failure_empty (m m' : String) :
    parse_rss_sitemap_io (.parseError m) = [] ∧
      parse_rss_sitemap_io .fileNotFound = [] ∧
      parse_rss_sitemap_io (.otherError m') = [] :=
  ⟨rfl, rfl, rfl⟩

/-- C9 counterexample: an item whose link text is whitespace-only is truthy
before stripping, so the code appends the empty string instead of skipping
the item. -/
theorem parse_appends_whitespace_link :
    parse_rss_sitemap (rssDoc [itemWithLink "   "]) = [""] := by
  decide

/-- C9 amended: the truthiness test happens on the raw text, before
stripping: the (trimmed) text of an item's link is appended exactly when the
raw text is non-empty, so a whitespace-only link contributes the empty
string. -/
theorem parse_append_iff_raw_nonempty (t : String) :
    parse_rss_sitemap (rssDoc [itemWithLink t]) =
      (if t = "" then [] else [pyStrip t]) := by
  unfold parse_rss_sitemap
  rw [findallDesc_rssDoc]
  show List.filterMap _ (findallDescList "item" ([t].map itemWithLink)) = _
  rw [findallDescList_items]
  simp only [List.map_cons, List.map_nil, List.filterMap_cons, List.filterMap_nil,
    parse_item_step]
  by_cases ht : t = "" <;> simp [ht]

/-! ## Submitters -/

/-- An HTTP response as seen through `requests`: status code, raw body text,
and the result of `response.json()` (`none` models the decode raising). -/
structure HttpResponse where
  status_code : Nat
  text : String
  jsonBody : Option Json

/-- Outcome of `self.session.post(...)`: a response, a
`requests.RequestException` (timeout, connection error, ...), or any other
exception raised during the call. -/
inductive NetOutcome where
  | resp (r : HttpResponse) : NetOutcome
  | requestException (msg : String) : NetOutcome
  | otherException (msg : String) : NetOutcome

/-- The `response` field of a result dict: decoded JSON (`response.json()`),
raw text (`response.text`), or absent. -/
inductive RespPayload where
  | jsonBody (j : Json) : RespPayload
  | textBody (s : String) : RespPayload
  | absent : RespPayload

/-- A submission result dict: `status` (`'success'`/`'error'`), `message`,
optional `response`. -/
structure SubmitResult where
  status : String
  message : String
  response : RespPayload := .absent

/-- JSON body of the Bing batch request. -/
structure BingPayload where
  siteUrl : String
  urlList : List String

/-- The Bing batch POST: target URL (with the key as query parameter) and
JSON payload. -/
structure BingRequest where
  url : String
  payload : BingPayload

/-- JSON body of the IndexNow request. -/
structure IndexNowPayload where
  host : String
  key : String
  keyLocation : String
  urlList : List String

/-- The IndexNow POST: target URL and JSON payload. -/
structure IndexNowRequest where
  url : String
  payload : IndexNowPayload

/-- Base endpoint set by `BingSubmitter.__init__`. -/
def bingBaseUrl : String := "https://ssl.bing.com/webmaster/api.svc/json/SubmitUrlbatch"

/-- Base endpoint set by `IndexNowSubmitter.__init__`. -/
def indexNowBaseUrl : String := "https://api.indexnow.org/IndexNow"

/-- Message text of the `ValueError` raised by `response.json()` on an
undecodable body (exact library wording abstracted). -/
def jsonDecodeErrorMsg (_body : String) : String :=
  "Expecting value"

/-- `sample` is a possible value of `random.sample(population, k)`: the
elements at `k` distinct positions of `population`, in some order. -/
def validSample (population : List String) (k : Nat) (sample : List String) : Prop :=
  ∃ idxs : List (Fin population.length),
    idxs.Nodup ∧ idxs.length = k ∧ sample = idxs.map population.get

/-- How `BingSubmitter.submit_urls` turns the outcome of its POST into a
result dict: 200 with decodable body → success with the decoded JSON (its
message counts `len(urls)`, the whole input); 200 with undecodable body →
the `ValueError` lands in the generic handler; other statuses → error with
the code and raw text; exceptions → error with the exception message. -/
def BingSubmitter.handleOutcome (urlCount : Nat) : NetOutcome → SubmitResult
  | .resp r =>
      if r.status_code = 200 then
        match r.jsonBody with
        | some j =>
            { status := "success",
              message := "成功提交 " ++ toString urlCount ++ " 个URL到必应",
              response := .jsonBody j }
        | none =>
            { status := "error",
              message := "提交过程中发生错误: " ++ jsonDecodeErrorMsg r.text }
      else
        { status := "error",
          message := "提交失败，状态码: " ++ toString r.status_code,
          response := .textBody r.text }
  | .requestException m =>
      { status := "error", message := "网络请求错误: " ++ m }
  | .otherException m =>
      { status := "error", message := "提交过程中发生错误: " ++ m }

/-- The request `BingSubmitter.submit_urls` posts when the key is present:
the key rides as a query parameter and the payload carries the sample. -/
def BingSubmitter.request (api_key site_url : String) (sample : List String) :
    BingRequest :=
  { url := bingBaseUrl ++ "?apikey=" ++ api_key,
    payload := { siteUrl := site_url, urlList := sample } }

/-- `BingSubmitter.submit_urls`.  `sample` stands for the value drawn by
`random.sample(urls, min(len(urls), limit))`; `net` is the network oracle.
Returns the result dict and the request posted (`none` if none was). -/
def BingSubmitter.submit_urls (api_key : String) (urls : List String)
    (site_url : String) (_limit : Nat) (sample : List String)
    (net : BingRequest → NetOutcome) : SubmitResult × Option BingRequest :=
  if api_key = "" then
    ({ status := "error",
       message := "缺少API密钥，请设置BING_API_KEY环境变量或手动提交" }, none)
  else
    let req := BingSubmitter.request api_key site_url sample
    (BingSubmitter.handleOutcome urls.length (net req), some req)

/-- How `IndexNowSubmitter.submit_urls` turns the outcome of its POST into a
result dict: 200 or 202 → success; other statuses → error; both carry the
status code in the message and the raw text; exceptions → error. -/
def IndexNowSubmitter.handleOutcome : NetOutcome → SubmitResult
  | .resp r =>
      if r.status_code ∈ [200, 202] then
        { status := "success",
          message := "成功提交, 状态码: " ++ toString r.status_code,
          response := .textBody r.text }
      else
        { status := "error",
          message := "提交失败，状态码: " ++ toString r.status_code,
          response := .textBody r.text }
  | .requestException m =>
      { status := "error", message := "网络请求错误: " ++ m }
  | .otherException m =>
      { status := "error", message := "提交过程中发生错误: " ++ m }

/-- The request `IndexNowSubmitter.submit_urls` posts when the key is
present: the full URL list with key and key location. -/
def IndexNowSubmitter.request (api_key site_url : String) (urls : List String) :
    IndexNowRequest :=
  { url := indexNowBaseUrl,
    payload := { host := site_url, key := api_key,
                 keyLocation := site_url ++ "/" ++ api_key ++ ".txt",
                 urlList := urls } }

/-- `IndexNowSubmitter.submit_urls`: posts the full URL list with the key
and key location; treats 200 and 202 as success. -/
def IndexNowSubmitter.submit_urls (api_key : String) (urls : List String)
    (site_url : String) (net : IndexNowRequest → NetOutcome) :
    SubmitResult × Option IndexNowRequest :=
  if api_key = "" then
    ({ status := "error",
       message := "缺少API密钥，请设置BING_API_KEY环境变量或手动提交" }, none)
  else
    let req := IndexNowSubmitter.request api_key site_url urls
    (IndexNowSubmitter.handleOutcome (net req), some req)

/-- C1: with a key configured, the Bing batch payload's `urlList` is the
drawn sample; any valid draw of `random.sample(urls, min(len(urls), limit))`
has exactly `min(len(urls), limit)` elements, hence at most `limit`, and is
a subset of the input list. -/
theorem bing_sample_size_subset (key site : String) (urls sample : List String)
    (limit : Nat) (net : BingRequest → NetOutcome)
    (hk : key ≠ "") (hs : validSample urls (min urls.length limit) sample) :
    (BingSubmitter.submit_urls key urls site limit sample net).2 =
      some (BingSubmitter.request key site sample) ∧
    (BingSubmitter.request key site sample).payload.urlList = sample ∧
    sample.length = min urls.length limit ∧
    sample.length ≤ limit ∧
    sample ⊆ urls := by
  obtain ⟨idxs, _, hlen, hmap⟩ := hs
  refine ⟨by simp [BingSubmitter.submit_urls, hk], rfl, ?_, ?_, ?_⟩
  · rw [hmap, List.length_map, hlen]
  · rw [hmap, List.length_map, hlen]; exact Nat.min_le_right _ _
  · intro a ha
    rw [hmap] at ha
    obtain ⟨i, _, rfl⟩ := List.mem_map.mp ha
    exact List.get_mem urls i.1 i.2

/-- C1 witness: three URLs, limit 2, and the draw picking positions 2 and 0. -/
theorem bing_sample_size_subset_witness :
    (BingSubmitter.submit_urls "k" ["a", "b", "c"] "https://e.com" 2 ["c", "a"]
        (fun _ => .requestException "timeout")).2 =
      some (BingSubmitter.request "k" "https://e.com" ["c", "a"]) ∧
    (BingSubmitter.request "k" "https://e.com" ["c", "a"]).payload.urlList = ["c", "a"] ∧
    (["c", "a"] : List String).length = min (["a", "b", "c"] : List String).length 2 ∧
    (["c", "a"] : List String).length ≤ 2 ∧
    (["c", "a"] : List String) ⊆ ["a", "b", "c"] :=
  bing_sample_size_subset "k" "https://e.com" ["a", "b", "c"] ["c", "a"] 2
    (fun _ => .requestException "timeout") (by decide)
    ⟨[⟨2, by decide⟩, ⟨0, by decide⟩], by decide, by decide, rfl⟩

/-- C2: an absent (empty) API key makes both submitters return a result
with status `'error'` without posting any request. -/
theorem missing_key_errors_before_network (urls sample : List String)
    (site : String) (limit : Nat)
    (netB : BingRequest → NetOutcome) (netI : IndexNowRequest → NetOutcome) :
    (BingSubmitter.submit_urls "" urls site limit sample netB).1.status = "error" ∧
    (BingSubmitter.submit_urls "" urls site limit sample netB).2 = none ∧
    (IndexNowSubmitter.submit_urls "" urls site netI).1.status = "error" ∧
    (IndexNowSubmitter.submit_urls "" urls site netI).2 = none :=
  ⟨rfl, rfl, rfl, rfl⟩

/-- C3 counterexample: a 200 response whose body is not decodable JSON makes
the Bing submitter return an error result (the `ValueError` from
`response.json()` lands in the generic exception handler), so a 200 response
does not always yield a success result. -/
theorem bing_200_undecodable_is_error :
    (BingSubmitter.submit_urls "k" ["u"] "s" 10 ["u"]
        (fun _ => .resp { status_code := 200, text := "not json", jsonBody := none })).1.status =
      "error" := rfl

/-- C3 amended: for calls reaching the HTTP layer, a 200 response whose body
decodes as JSON yields a success result (for the batch submitter carrying
the decoded body), while a 200 whose body fails to decode yields an error
result; any non-success status yields an error result whose message carries
the status code and whose `response` field carries the raw body text; the
push submitter treats exactly 200 and 202 as success. -/
theorem http_status_result_shape (key site : String) (urls sample : List String)
    (limit : Nat) (r : HttpResponse) (hk : key ≠ "") :
    (r.status_code = 200 → ∀ j, r.jsonBody = some j →
       (BingSubmitter.submit_urls key urls site limit sample (fun _ => .resp r)).1 =
         { status := "success",
           message := "成功提交 " ++ toString urls.length ++ " 个URL到必应",
           response := .jsonBody j }) ∧
    (r.status_code = 200 → r.jsonBody = none →
       (BingSubmitter.submit_urls key urls site limit sample (fun _ => .resp r)).1.status =
         "error") ∧
    (r.status_code ≠ 200 →
       (BingSubmitter.submit_urls key urls site limit sample (fun _ => .resp r)).1 =
         { status := "error",
           message := "提交失败，状态码: " ++ toString r.status_code,
           response := .textBody r.text }) ∧
    (r.status_code ∈ [200, 202] →
       (IndexNowSubmitter.submit_urls key urls site (fun _ => .resp r)).1 =
         { status := "success",
           message := "成功提交, 状态码: " ++ toString r.status_code,
           response := .textBody r.text }) ∧
    (r.status_code ∉ [200, 202] →
       (IndexNowSubmitter.submit_urls key urls site (fun _ => .resp r)).1 =
         { status := "error",
           message := "提交失败，状态码: " ++ toString r.status_code,
           response := .textBody r.text }) := by
  refine ⟨?_, ?_, ?_, ?_, ?_⟩
  · intro h200 j hj
    simp [BingSubmitter.submit_urls, BingSubmitter.handleOutcome, hk, h200, hj]
  · intro h200 hj
    simp [BingSubmitter.submit_urls, BingSubmitter.handleOutcome, hk, h200, hj]
  · intro hne
    simp [BingSubmitter.submit_urls, BingSubmitter.handleOutcome, hk, hne]
  · intro hmem
    simp [IndexNowSubmitter.submit_urls, IndexNowSubmitter.handleOutcome, hk, hmem]
  · intro hnmem
    simp [IndexNowSubmitter.submit_urls, IndexNowSubmitter.handleOutcome, hk, hnmem]

/-- C3 witness: a 404 with body text `nf` produces the expected error shapes
on both submitters, and a 200 with decoded body succeeds on the batch one. -/
theorem http_status_result_shape_witness :
    (BingSubmitter.submit_urls "k" ["u"] "s" 10 ["u"]
        (fun _ => .resp { status_code := 404, text := "nf", jsonBody := none })).1 =
      { status := "error", message := "提交失败，状态码: " ++ toString (404 : Nat),
        response := .textBody "nf" } ∧
    (IndexNowSubmitter.submit_urls "k" ["u"] "s"
        (fun _ => .resp { status_code := 404, text := "nf", jsonBody := none })).1 =
      { status := "error", message := "提交失败，状态码: " ++ toString (404 : Nat),
        response := .textBody "nf" } ∧
    (BingSubmitter.submit_urls "k" ["u"] "s" 10 ["u"]
        (fun _ => .resp { status_code := 200, text := "[]", jsonBody := some (.arr []) })).1 =
      { status := "success",
        message := "成功提交 " ++ toString (["u"] : List String).length ++ " 个URL到必应",
        response := .jsonBody (.arr []) } := by
  have h404 := http_status_result_shape "k" "s" ["u"] ["u"] 10
    { status_code := 404, text := "nf", jsonBody := none } (by decide)
  have h200 := http_status_result_shape "k" "s" ["u"] ["u"] 10
    { status_code := 200, text := "[]", jsonBody := some (.arr []) } (by decide)
  exact ⟨h404.2.2.1 (by decide), h404.2.2.2.2 (by decide), h200.1 rfl (.arr []) rfl⟩

/-- C6: with a key configured, the IndexNow submitter posts the entire input
URL list, unsampled, with payload
`{host: siteUrl, key, keyLocation: siteUrl + "/" + key + ".txt", urlList: urls}`. -/
theorem indexnow_full_payload (key site : String) (urls : List String)
    (net : IndexNowRequest → NetOutcome) (hk : key ≠ "") :
    (IndexNowSubmitter.submit_urls key urls site net).2 =
      some { url := indexNowBaseUrl,
             payload := { host := site, key := key,
                          keyLocation := site ++ "/" ++ key ++ ".txt",
                          urlList := urls } } := by
  simp [IndexNowSubmitter.submit_urls, IndexNowSubmitter.request, hk]

/-- C6 witness: concrete key, site and two URLs. -/
theorem indexnow_full_payload_witness :
    (IndexNowSubmitter.submit_urls "abc" ["u1", "u2"] "https://e.com"
        (fun _ => .requestException "timeout")).2 =
      some { url := indexNowBaseUrl,
             payload := { host := "https://e.com", key := "abc",
                          keyLocation := "https://e.com" ++ "/" ++ "abc" ++ ".txt",
                          urlList := ["u1", "u2"] } } :=
  indexnow_full_payload "abc" "https://e.com" ["u1", "u2"]
    (fun _ => .requestException "timeout") (by decide)

/-- C10: when the input list has at most `limit` elements,
`min(len(urls), limit) = len(urls)`, so any valid draw carried by the batch
payload is a permutation of the whole input list: every element occurs in it
exactly as often as in the input, though in an arbitrary order. -/
theorem bing_full_list_is_permutation (key site : String) (urls sample : List String)
    (limit : Nat) (net : BingRequest → NetOutcome)
    (hk : key ≠ "") (hle : urls.length ≤ limit)
    (hs : validSample urls (min urls.length limit) sample) :
    (BingSubmitter.submit_urls key urls site limit sample net).2 =
      some (BingSubmitter.request key site sample) ∧
    sample.Perm urls := by
  obtain ⟨idxs, hnd, hlen, hmap⟩ := hs
  have hmin : min urls.length limit = urls.length := Nat.min_eq_left hle
  have hperm : idxs.Perm (List.finRange urls.length) := by
    refine (hnd.subperm fun i _ => List.mem_finRange i).perm_of_length_le ?_
    rw [List.length_finRange, hlen, hmin]
  have h2 : (idxs.map urls.get).Perm ((List.finRange urls.length).map urls.get) :=
    hperm.map _
  rw [List.finRange_map_get] at h2
  exact ⟨by simp [BingSubmitter.submit_urls, hk], hmap ▸ h2⟩

/-- C10 witness: both input URLs drawn, in reversed order. -/
theorem bing_full_list_is_permutation_witness :
    (BingSubmitter.submit_urls "k" ["a", "b"] "s" 10 ["b", "a"]
        (fun _ => .requestException "timeout")).2 =
      some (BingSubmitter.request "k" "s" ["b", "a"]) ∧
    List.Perm ["b", "a"] ["a", "b"] :=
  bing_full_list_is_permutation "k" "s" ["a", "b"] ["b", "a"] 10
    (fun _ => .requestException "timeout") (by decide) (by decide)
    ⟨[⟨1, by decide⟩, ⟨0, by decide⟩], by decide, by decide, rfl⟩

/-! ## Orchestration (`main`) -/

/-- Python `str.split(sep)` for a one-character separator, over the
character list; empty fields are kept, and splitting the empty string gives
one empty field, as in Python. -/
def splitOnChar (c : Char) : List Char → List (List Char)
  | [] => [[]]
  | x :: xs =>
      match splitOnChar c xs, decide (x = c) with
      | groups, true => [] :: groups
      | [], false => [[x]]
      | g :: gs, false => (x :: g) :: gs

/-- Python `u.split('/')`. -/
def pySplitSlash (u : String) : List String :=
  (splitOnChar '/' u.data).map fun g => ⟨g⟩

/-- Site-origin derivation, `mainFlow` step 3:
`urls[0].split('/')[0] + '//' + urls[0].split('/')[2]`.  Indexing a list
position that does not exist raises `IndexError`, modelled as `.error`. -/
def deriveSiteUrl (u : String) : Except String String :=
  match (pySplitSlash u).get? 0, (pySplitSlash u).get? 2 with
  | some p0, some p2 => .ok (p0 ++ "//" ++ p2)
  | _, _ => .error "IndexError: list index out of range"

/-- Python truthiness of `os.getenv(...)`: `None` and `""` are falsy. -/
def truthy : Option String → Bool
  | none => false
  | some s => decide (s ≠ "")

/-- Result of a completed run of `mainFlow` (after argument parsing and logger
setup): stopped early for lack of URLs, stopped for lack of keys, or ran
both submissions, recording the derived site origin and both calls. -/
inductive MainResult where
  | noUrls : MainResult
  | missingKeys : MainResult
  | completed (site_url : String)
      (bing : SubmitResult × Option BingRequest)
      (push : SubmitResult × Option IndexNowRequest) : MainResult

/-- The program's `main` function (named `mainFlow` here since Lean reserves
`main`), after argument parsing and logger setup: parse the
sitemap, stop if no URLs; read both keys, stop unless both are truthy;
derive the site origin from the first URL (`.error` models the uncaught
`IndexError`); submit to Bing, then to IndexNow, with the same site URL. -/
def mainFlow (ro : ReadOutcome) (bingKey indexNowKey : Option String)
    (sample : List String)
    (netB : BingRequest → NetOutcome) (netI : IndexNowRequest → NetOutcome) :
    Except String MainResult :=
  match parse_rss_sitemap_io ro with
  | [] => .ok .noUrls
  | u0 :: rest =>
      if truthy bingKey && truthy indexNowKey then
        match deriveSiteUrl u0 with
        | .ok site_url =>
            .ok (.completed site_url
              (BingSubmitter.submit_urls (bingKey.getD "") (u0 :: rest) site_url
                10 sample netB)
              (IndexNowSubmitter.submit_urls (indexNowKey.getD "") (u0 :: rest)
                site_url netI))
        | .error e => .error e
      else .ok .missingKeys

theorem deriveSiteUrl_ok_of_parts (u : String)
    (h : 3 ≤ (pySplitSlash u).length) : ∃ s, deriveSiteUrl u = .ok s := by
  have h0 : (pySplitSlash u).get? 0 = some ((pySplitSlash u).get ⟨0, by omega⟩) :=
    List.get?_eq_get (by omega)
  have h2 : (pySplitSlash u).get? 2 = some ((pySplitSlash u).get ⟨2, by omega⟩) :=
    List.get?_eq_get (by omega)
  exact ⟨(pySplitSlash u).get ⟨0, by omega⟩ ++ "//" ++ (pySplitSlash u).get ⟨2, by omega⟩,
    by simp only [deriveSiteUrl, h0, h2]⟩

/-- C7 counterexample: a sitemap whose only link is `hello` (no slash) makes
`urls[0].split('/')[2]` raise an uncaught `IndexError` in `mainFlow`, after
parsing: not every step of the orchestration after parsing is
exception-free. -/
theorem main_crashes_on_slashless_first_url :
    mainFlow (.ok (rssDoc [itemWithLink "hello"])) (some "bk") (some "ik") []
      (fun _ => .requestException "t") (fun _ => .requestException "t") =
    .error "IndexError: list index out of range" := rfl

/-- C7 amended: every error is absorbed at a component boundary into an
empty return value or a structured error result — except site-origin
derivation, which raises an uncaught `IndexError` when the first parsed URL
splits on `/` into fewer than three parts.  Whenever an early-exit guard
fires or the first URL has at least three such parts, `mainFlow` finishes
without an exception. -/
theorem main_total_unless_short_split (ro : ReadOutcome)
    (bingKey indexNowKey : Option String) (sample : List String)
    (netB : BingRequest → NetOutcome) (netI : IndexNowRequest → NetOutcome)
    (h : parse_rss_sitemap_io ro = [] ∨
         (truthy bingKey && truthy indexNowKey) = false ∨
         3 ≤ (pySplitSlash ((parse_rss_sitemap_io ro).headD "")).length) :
    ∃ r, mainFlow ro bingKey indexNowKey sample netB netI = .ok r := by
  cases hu : parse_rss_sitemap_io ro with
  | nil => exact ⟨.noUrls, by simp [mainFlow, hu]⟩
  | cons u0 rest =>
      by_cases hk : (truthy bingKey && truthy indexNowKey) = true
      · have h3 : 3 ≤ (pySplitSlash u0).length := by
          rcases h with h | h | h
          · rw [hu] at h; cases h
          · rw [hk] at h; cases h
          · rw [hu] at h; simpa using h
        obtain ⟨s, hs⟩ := deriveSiteUrl_ok_of_parts u0 h3
        exact ⟨.completed s
            (BingSubmitter.submit_urls (bingKey.getD "") (u0 :: rest) s 10 sample netB)
            (IndexNowSubmitter.submit_urls (indexNowKey.getD "") (u0 :: rest) s netI),
          by simp [mainFlow, hu, hk, hs]⟩
      · have hk' : (truthy bingKey && truthy indexNowKey) = false :=
          Bool.not_eq_true _ ▸ Bool.of_not_eq_true hk
        exact ⟨.missingKeys, by simp [mainFlow, hu, hk']⟩

/-- C7 witness: with a well-formed first URL, `mainFlow` completes without an
exception for arbitrary concrete network outcomes. -/
theorem main_total_unless_short_split_witness :
    (parse_rss_sitemap_io (.ok (rssDoc [itemWithLink "https://e.com/p"])) = [] ∨
       (truthy (some "bk") && truthy (some "ik")) = false ∨
       3 ≤ (pySplitSlash
         ((parse_rss_sitemap_io (.ok (rssDoc [itemWithLink "https://e.com/p"]))).headD "")).length) ∧
    ∃ r, mainFlow (.ok (rssDoc [itemWithLink "https://e.com/p"])) (some "bk") (some "ik")
        ["https://e.com/p"] (fun _ => .requestException "t")
        (fun _ => .requestException "t") = .ok r :=
  ⟨Or.inr (Or.inr (by decide)),
    main_total_unless_short_split (.ok (rssDoc [itemWithLink "https://e.com/p"]))
      (some "bk") (some "ik") ["https://e.com/p"]
      (fun _ => .requestException "t") (fun _ => .requestException "t")
      (Or.inr (Or.inr (by decide)))⟩

/-- C8: the site origin is the first URL's `split('/')` parts 0 and 2 glued
with `//` — for `https://example.com/a/b` that is `https://example.com` —
and `mainFlow` passes this single derived value as the site URL of both
submitter calls. -/
theorem site_origin_single_value (ro : ReadOutcome)
    (bingKey indexNowKey : Option String) (sample : List String)
    (netB : BingRequest → NetOutcome) (netI : IndexNowRequest → NetOutcome)
    (u0 : String) (rest : List String)
    (hu : parse_rss_sitemap_io ro = u0 :: rest)
    (hkeys : (truthy bingKey && truthy indexNowKey) = true)
    (s : String) (hs : deriveSiteUrl u0 = .ok s) :
    deriveSiteUrl "https://example.com/a/b" = .ok "https://example.com" ∧
    mainFlow ro bingKey indexNowKey sample netB netI =
      .ok (.completed s
        (BingSubmitter.submit_urls (bingKey.getD "") (u0 :: rest) s 10 sample netB)
        (IndexNowSubmitter.submit_urls (indexNowKey.getD "") (u0 :: rest) s netI)) :=
  ⟨rfl, by simp [mainFlow, hu, hkeys, hs]⟩

/-- C8 witness: for a sitemap whose first URL is
`https://example.com/a/b`, both submitters are invoked with site URL
`https://example.com`. -/
theorem site_origin_single_value_witness :
    deriveSiteUrl "https://example.com/a/b" = .ok "https://example.com" ∧
    mainFlow (.ok (rssDoc [itemWithLink "https://example.com/a/b"]))
        (some "bk") (some "ik") ["https://example.com/a/b"]
        (fun _ => .requestException "t") (fun _ => .requestException "t") =
      .ok (.completed "https://example.com"
        (BingSubmitter.submit_urls "bk" ["https://example.com/a/b"]
          "https://example.com" 10 ["https://example.com/a/b"]
          (fun _ => .requestException "t"))
        (IndexNowSubmitter.submit_urls "ik" ["https://example.com/a/b"]
          "https://example.com" (fun _ => .requestException "t"))) :=
  site_origin_single_value (.ok (rssDoc [itemWithLink "https://example.com/a/b"]))
    (some "bk") (some "ik") ["https://example.com/a/b"]
    (fun _ => .requestException "t") (fun _ => .requestException "t")
    "https://example.com/a/b" [] (by decide) (by decide)
    "https://example.com" rfl
